import Mathlib

/-!
Shallow embedding of the block-level state-transition core of
drortirosh/go-ethereum, covering:

* core/state_processor.go — the Process orchestrator, the two-phase
  account-abstraction (AA) protocol (applyAlexfAATransactionValidationPhase,
  applyAlexfAATransactionExecutionPhase and their exported wrappers) and the
  legacy transaction applier (applyTransaction);
* tests/gen_stauthorization.go — the JSON (un)marshalling of the
  stAuthorization fixture record.

External collaborators (the call-frame invoker ApplyMessage, message
construction TransactionToMessage, the state database log/root queries,
address/bloom construction, chain-rule switches) are modelled as an
environment of oracle functions.  Byte strings are lists of naturals;
machine integers are Nat / Int.  Go functions that can fault (nil-pointer
dereference, slice bounds) are embedded with an explicit panic outcome.
Every call frame handed to ApplyMessage is recorded in a trace, tagged with
the syntactic frame that produced it, so that claims about which frames run
and whom they target are stateable.
-/

/-- Bytes are naturals (only their identity matters to the claims). -/
abbrev Byte := Nat

/-- common.Address, a 20-byte value. -/
abbrev Address := List Byte

/-- common.Address{} — the all-zero address. -/
def zeroAddress : Address := List.replicate 20 0

/-- A log entry (types.Log); opaque to the orchestrator, so a bare tag. -/
abbrev Log := Nat

/-- A bloom filter (types.Bloom); opaque, produced by an oracle. -/
abbrev Bloom := Nat

/-- types.AccessList: a list of (address, storage keys) tuples. -/
abbrev AccessList := List (Address × List Nat)

/-- Errors as produced by the Go code: either a plain message
(errors.New / an external error), or the fmt.Errorf wrapping
"could not apply tx %d [%v]: %w" that attaches a transaction index and
hash to an inner error. -/
inductive GoError where
  | msg (s : String)
  | wrapTx (index : Nat) (hash : Nat) (inner : GoError)
deriving DecidableEq

/-- True exactly for errors of the wrapped "could not apply tx %d [%v]" form. -/
def GoError.isWrapped : GoError → Bool
  | GoError.wrapTx _ _ _ => true
  | _ => false

/-- Outcome of a Go function returning (value, error) that can additionally
fault at runtime (nil dereference, slice bounds). -/
inductive PhaseOutcome (α : Type) where
  | panic (reason : String)
  | err (e : GoError)
  | ok (a : α)
deriving DecidableEq

/-- Outcome of a Go function whose multiple return values are modelled as a
single record, but which can still fault at runtime. -/
inductive GoResult (α : Type) where
  | panic (reason : String)
  | ret (a : α)
deriving DecidableEq

/-- The result handed back by the external call-frame invoker ApplyMessage:
Failed mirrors result.Failed(), ReturnData result.ReturnData, UsedGas
result.UsedGas. -/
structure ExecutionResult where
  Failed : Bool
  ReturnData : List Byte
  UsedGas : Nat
deriving DecidableEq

/-- core.Message (the call-frame descriptor).  The Value / price fields are
pointers to big.Int in Go, hence Option Int here (none models a nil
pointer, as in the zero Message literal). -/
structure Message where
  From : Address
  To : Option Address
  Value : Option Int
  GasLimit : Nat
  GasPrice : Option Int
  GasFeeCap : Option Int
  GasTipCap : Option Int
  Data : List Byte
  AccessList : AccessList
  SkipAccountChecks : Bool
  IsInnerAATxFrame : Bool
deriving DecidableEq

/-- The zero Message literal &Message{} used for the deployer frame:
every field is its Go zero value (nil recipient, nil big.Int prices, nil
data, false flags). -/
def emptyMessage : Message :=
  { From := zeroAddress, To := none, Value := none, GasLimit := 0,
    GasPrice := none, GasFeeCap := none, GasTipCap := none, Data := [],
    AccessList := [], SkipAccountChecks := false, IsInnerAATxFrame := false }

/-- types.AlexfAccountAbstractionTx — the fields the orchestrator reads.
Sender is dereferenced unconditionally by the source, so it is embedded by
value. -/
structure AlexfAccountAbstractionTx where
  Sender : Address
  DeployerData : List Byte
  PaymasterData : List Byte
  AccessList : AccessList
deriving DecidableEq

/-- types.ALEXF_AA_TX_TYPE.  The constant lives in the types package
(outside the sources under inspection); only its use as a distinguished
type tag matters, so its concrete value is arbitrary. -/
def ALEXF_AA_TX_TYPE : Nat := 5

/-- types.BlobTxType (EIP-4844 transaction type tag). -/
def BlobTxType : Nat := 3

/-- params.BlobTxBlobGasPerBlob. -/
def BlobTxBlobGasPerBlob : Nat := 131072

/-- types.ReceiptStatusFailed. -/
def ReceiptStatusFailed : Nat := 0

/-- types.ReceiptStatusSuccessful. -/
def ReceiptStatusSuccessful : Nat := 1

/-- A transaction as consumed by Process: its type tag, hash, nonce, blob
hashes and — for AA transactions — the embedded AA payload
(tx.AlexfAATransactionData(), nil i.e. none for other types). -/
structure Transaction where
  TxType : Nat
  Hash : Nat
  Nonce : Nat
  BlobHashes : List Nat
  AlexfAATransactionData : Option AlexfAccountAbstractionTx
deriving DecidableEq

/-- types.Receipt with the fields the sources populate.  ContractAddress is
Option to model the unset zero value. -/
structure Receipt where
  TxType : Nat
  PostState : List Byte
  CumulativeGasUsed : Nat
  Status : Nat
  TxHash : Nat
  GasUsed : Nat
  BlobGasUsed : Nat
  BlobGasPrice : Int
  ContractAddress : Option Address
  Logs : List Log
  Bloom : Bloom
  BlockHash : Nat
  BlockNumber : Nat
  TransactionIndex : Nat
deriving DecidableEq

/-- core.ValidationPhaseResult.  Tx is a pointer in Go (nil until the
exported validation wrapper fills it in), hence Option. -/
structure ValidationPhaseResult where
  Tx : Option Transaction
  paymasterContext : List Byte
  validationGasUsed : Nat
  paymasterGasUsed : Nat
deriving DecidableEq

/-- The block data Process reads. -/
structure Block where
  Transactions : List Transaction
  Withdrawals : List Nat
  Number : Nat
  Hash : Nat
  Time : Nat
  GasLimit : Nat

/-- The external collaborators of the orchestrator.  ApplyMessage takes the
index of the invocation (each state-mutating call may behave differently)
and the message; TransactionToMessage covers message construction under the
block signer and base fee; GetLogs is statedb.GetLogs keyed by transaction
hash, block number and block hash; IntermediateRoot, CreateAddress and
CreateBloom stand for the state-root, crypto.CreateAddress and
types.CreateBloom computations; the Is* flags are the chain-rule switches
evaluated at this block. -/
structure Env where
  ApplyMessage : Nat → Message → Except GoError ExecutionResult
  TransactionToMessage : Transaction → Except GoError Message
  GetLogs : Nat → Nat → Nat → List Log
  IntermediateRoot : Bool → List Byte
  CreateAddress : Address → Nat → Address
  CreateBloom : List Log → Bloom
  BlobBaseFee : Int
  IsByzantium : Bool
  IsEIP158 : Bool
  IsShanghai : Bool

/-- Tags identifying which syntactic call-frame construction of the source
produced a message handed to ApplyMessage. -/
inductive FrameKind where
  | nonceManager
  | deployer
  | accountValidation
  | paymasterValidation
  | accountExecution
  | paymasterPostOp
  | legacyTx
deriving DecidableEq

/-- The nonce-manager frame (state_processor.go lines 132-144): zero-value
call from the sender to the zero address, fixed internal gas parameters,
payload = the paymaster-data with its 20-byte prefix stripped. -/
def nonceManagerMsg (aatx : AlexfAccountAbstractionTx) : Message :=
  { From := aatx.Sender, To := some zeroAddress, Value := some 0,
    GasLimit := 100000, GasPrice := some 875000000, GasFeeCap := some 875000000,
    GasTipCap := some 875000000, Data := aatx.PaymasterData.drop 20,
    AccessList := aatx.AccessList, SkipAccountChecks := true,
    IsInnerAATxFrame := true }

/-- The account self-validation frame (lines 163-176): the sender calling
itself with the empty validateTransactionData payload. -/
def accountValidationMsg (aatx : AlexfAccountAbstractionTx) : Message :=
  { From := aatx.Sender, To := some aatx.Sender, Value := some 0,
    GasLimit := 100000, GasPrice := some 875000000, GasFeeCap := some 875000000,
    GasTipCap := some 875000000, Data := [],
    AccessList := aatx.AccessList, SkipAccountChecks := true,
    IsInnerAATxFrame := true }

/-- The sponsor (paymaster) validation frame (lines 185-198): targets the
20-byte address prefix of the paymaster-data, payload = the remainder. -/
def paymasterMsg (aatx : AlexfAccountAbstractionTx) : Message :=
  { From := aatx.Sender, To := some (aatx.PaymasterData.take 20), Value := some 0,
    GasLimit := 100000, GasPrice := some 875000000, GasFeeCap := some 875000000,
    GasTipCap := some 875000000, Data := aatx.PaymasterData.drop 20,
    AccessList := aatx.AccessList, SkipAccountChecks := true,
    IsInnerAATxFrame := true }

/-- The account self-execution frame (lines 225-237): the sender calling
itself with the empty executionData payload. -/
def accountExecutionMsg (aatx : AlexfAccountAbstractionTx) : Message :=
  { From := aatx.Sender, To := some aatx.Sender, Value := some 0,
    GasLimit := 100000, GasPrice := some 875000000, GasFeeCap := some 875000000,
    GasTipCap := some 875000000, Data := [],
    AccessList := aatx.AccessList, SkipAccountChecks := true,
    IsInnerAATxFrame := true }

/-- The sponsor post-operation frame (lines 248-259): targets the 20-byte
address prefix of the paymaster-data, payload = the captured context. -/
def paymasterPostOpMsg (aatx : AlexfAccountAbstractionTx) (vpr : ValidationPhaseResult) : Message :=
  { From := aatx.Sender, To := some (aatx.PaymasterData.take 20), Value := some 0,
    GasLimit := 100000, GasPrice := some 875000000, GasFeeCap := some 875000000,
    GasTipCap := some 875000000, Data := vpr.paymasterContext,
    AccessList := aatx.AccessList, SkipAccountChecks := true,
    IsInnerAATxFrame := true }

/-- The deployer-frame guard (lines 151-153): deployer-data is at least 20
bytes and its 20-byte address prefix is non-zero
(deployerAddress.Cmp(common.Address{}) != 0). -/
def deployerCond (aatx : AlexfAccountAbstractionTx) : Bool :=
  decide (20 ≤ aatx.DeployerData.length) && decide (aatx.DeployerData.take 20 ≠ zeroAddress)

/-- The "paymaster validation failed - invalid transaction" error
(line 208). -/
def paymasterValidationFailedError : GoError :=
  GoError.msg "paymaster validation failed - invalid transaction"

/-- Prefix a trace onto the trace component of a phase result. -/
def prependTrace {α : Type} (tr : List (FrameKind × Message))
    (r : PhaseOutcome α × Nat × List (FrameKind × Message)) :
    PhaseOutcome α × Nat × List (FrameKind × Message) :=
  (r.1, r.2.1, tr ++ r.2.2)

/-- The tail of the validation phase from the account self-validation frame
on (state_processor.go lines 163-218).  The local variable
paymasterContext (line 183) is declared with var paymasterContext []byte
and never assigned anywhere in the function, so the ValidationPhaseResult
built at lines 212-216 always carries the empty (nil) context; the gas
counters are the literal zeros of lines 214-215.  cnt is the running
ApplyMessage invocation counter. -/
def validationTail (env : Env) (cnt : Nat) (aatx : AlexfAccountAbstractionTx) :
    PhaseOutcome ValidationPhaseResult × Nat × List (FrameKind × Message) :=
  match env.ApplyMessage cnt (accountValidationMsg aatx) with
  | Except.error e =>
      (PhaseOutcome.err e, cnt + 1, [(FrameKind.accountValidation, accountValidationMsg aatx)])
  | Except.ok _resultAccountValidation =>
      if 20 ≤ aatx.PaymasterData.length then
        match env.ApplyMessage (cnt + 1) (paymasterMsg aatx) with
        | Except.error e =>
            (PhaseOutcome.err e, cnt + 2,
              [(FrameKind.accountValidation, accountValidationMsg aatx),
               (FrameKind.paymasterValidation, paymasterMsg aatx)])
        | Except.ok resultPm =>
            if resultPm.Failed then
              (PhaseOutcome.err paymasterValidationFailedError, cnt + 2,
                [(FrameKind.accountValidation, accountValidationMsg aatx),
                 (FrameKind.paymasterValidation, paymasterMsg aatx)])
            else
              (PhaseOutcome.ok
                { Tx := none, paymasterContext := [], validationGasUsed := 0,
                  paymasterGasUsed := 0 }, cnt + 2,
                [(FrameKind.accountValidation, accountValidationMsg aatx),
                 (FrameKind.paymasterValidation, paymasterMsg aatx)])
      else
        (PhaseOutcome.ok
          { Tx := none, paymasterContext := [], validationGasUsed := 0,
            paymasterGasUsed := 0 }, cnt + 1,
          [(FrameKind.accountValidation, accountValidationMsg aatx)])

/-- core.applyAlexfAATransactionValidationPhase (lines 131-219).  The very
first frame construction evaluates aatx.PaymasterData[20:] (line 140); for
a decoded byte slice (capacity = length) Go panics with "slice bounds out
of range" whenever the slice is shorter than 20 bytes, before any call
frame is invoked — modelled by the entry guard.  The deployer branch
(lines 151-161) invokes ApplyMessage on the zero Message literal
&Message{}, not on a message addressed to the deployer. -/
def applyAlexfAATransactionValidationPhase (env : Env) (cnt : Nat)
    (aatx : AlexfAccountAbstractionTx) :
    PhaseOutcome ValidationPhaseResult × Nat × List (FrameKind × Message) :=
  if aatx.PaymasterData.length < 20 then
    (PhaseOutcome.panic "slice bounds out of range", cnt, [])
  else
    match env.ApplyMessage cnt (nonceManagerMsg aatx) with
    | Except.error e =>
        (PhaseOutcome.err e, cnt + 1, [(FrameKind.nonceManager, nonceManagerMsg aatx)])
    | Except.ok _resultNonceManager =>
        if deployerCond aatx then
          match env.ApplyMessage (cnt + 1) emptyMessage with
          | Except.error e =>
              (PhaseOutcome.err e, cnt + 2,
                [(FrameKind.nonceManager, nonceManagerMsg aatx),
                 (FrameKind.deployer, emptyMessage)])
          | Except.ok _resultDeployer =>
              prependTrace
                [(FrameKind.nonceManager, nonceManagerMsg aatx),
                 (FrameKind.deployer, emptyMessage)]
                (validationTail env (cnt + 2) aatx)
        else
          prependTrace [(FrameKind.nonceManager, nonceManagerMsg aatx)]
            (validationTail env (cnt + 1) aatx)

/-- The receipt built by the AA execution phase (lines 267-277): type tag
from the transaction, nil post-state, zero cumulative gas (the TODO in the
source), logs fetched by transaction hash, status from the self-execution
result; every other field keeps its Go zero value. -/
def aaReceipt (env : Env) (tx : Transaction) (result : ExecutionResult)
    (blockNumber blockHash : Nat) : Receipt :=
  { TxType := tx.TxType, PostState := [], CumulativeGasUsed := 0,
    Status := if result.Failed then ReceiptStatusFailed else ReceiptStatusSuccessful,
    TxHash := 0, GasUsed := 0, BlobGasUsed := 0, BlobGasPrice := 0,
    ContractAddress := none,
    Logs := env.GetLogs tx.Hash blockNumber blockHash,
    Bloom := 0, BlockHash := 0, BlockNumber := 0, TransactionIndex := 0 }

/-- core.applyAlexfAATransactionExecutionPhase (lines 221-279).
vpr.Tx.AlexfAATransactionData() dereferences the Tx pointer and then the
AA payload pointer, so a nil in either position faults.  The sponsor
post-operation branch runs iff the carried paymasterContext is non-empty;
its address conversion [20]byte(aatx.PaymasterData[0:20]) (line 247)
faults when the paymaster-data is shorter than 20 bytes. -/
def applyAlexfAATransactionExecutionPhase (env : Env) (cnt : Nat)
    (vpr : ValidationPhaseResult) (blockNumber blockHash : Nat) :
    PhaseOutcome Receipt × Nat × List (FrameKind × Message) :=
  match vpr.Tx with
  | none => (PhaseOutcome.panic "nil pointer dereference", cnt, [])
  | some tx =>
    match tx.AlexfAATransactionData with
    | none => (PhaseOutcome.panic "nil pointer dereference", cnt, [])
    | some aatx =>
      match env.ApplyMessage cnt (accountExecutionMsg aatx) with
      | Except.error e =>
          (PhaseOutcome.err e, cnt + 1,
            [(FrameKind.accountExecution, accountExecutionMsg aatx)])
      | Except.ok result =>
          if vpr.paymasterContext.length ≠ 0 then
            if aatx.PaymasterData.length < 20 then
              (PhaseOutcome.panic "slice bounds out of range", cnt + 1,
                [(FrameKind.accountExecution, accountExecutionMsg aatx)])
            else
              match env.ApplyMessage (cnt + 1) (paymasterPostOpMsg aatx vpr) with
              | Except.error e =>
                  (PhaseOutcome.err e, cnt + 2,
                    [(FrameKind.accountExecution, accountExecutionMsg aatx),
                     (FrameKind.paymasterPostOp, paymasterPostOpMsg aatx vpr)])
              | Except.ok _resultPostOp =>
                  (PhaseOutcome.ok (aaReceipt env tx result blockNumber blockHash), cnt + 2,
                    [(FrameKind.accountExecution, accountExecutionMsg aatx),
                     (FrameKind.paymasterPostOp, paymasterPostOpMsg aatx vpr)])
          else
            (PhaseOutcome.ok (aaReceipt env tx result blockNumber blockHash), cnt + 1,
              [(FrameKind.accountExecution, accountExecutionMsg aatx)])

/-- 2^64, the modulus of Go uint64 arithmetic: the usedGas accumulator of
applyTransaction is a uint64 that wraps on overflow. -/
def uint64Modulus : Nat := 2 ^ 64

/-- core.applyTransaction (lines 281-329), the legacy applier.  txIndex is
the index installed by statedb.SetTxContext just before the call (read
back via statedb.TxIndex() at line 327).  Returns the receipt together
with the updated usedGas accumulator; the update
*usedGas += result.UsedGas (line 299) is uint64 addition, i.e. addition
modulo 2^64. -/
def applyTransaction (env : Env) (cnt : Nat) (msg : Message) (tx : Transaction)
    (usedGas blockNumber blockHash txIndex : Nat) :
    Except GoError (Receipt × Nat) × Nat × List (FrameKind × Message) :=
  match env.ApplyMessage cnt msg with
  | Except.error e => (Except.error e, cnt + 1, [(FrameKind.legacyTx, msg)])
  | Except.ok result =>
      let root : List Byte := if env.IsByzantium then [] else env.IntermediateRoot env.IsEIP158
      let usedGas2 := (usedGas + result.UsedGas) % uint64Modulus
      let logs := env.GetLogs tx.Hash blockNumber blockHash
      (Except.ok
        ({ TxType := tx.TxType, PostState := root, CumulativeGasUsed := usedGas2,
           Status := if result.Failed then ReceiptStatusFailed else ReceiptStatusSuccessful,
           TxHash := tx.Hash, GasUsed := result.UsedGas,
           BlobGasUsed := if tx.TxType = BlobTxType then tx.BlobHashes.length * BlobTxBlobGasPerBlob else 0,
           BlobGasPrice := if tx.TxType = BlobTxType then env.BlobBaseFee else 0,
           ContractAddress := if msg.To = none then some (env.CreateAddress msg.From tx.Nonce) else none,
           Logs := logs, Bloom := env.CreateBloom logs,
           BlockHash := blockHash, BlockNumber := blockNumber,
           TransactionIndex := txIndex }, usedGas2),
       cnt + 1, [(FrameKind.legacyTx, msg)])

/-- core.ApplyAlexfAATransactionValidationPhase (lines 354-374).  A nil AA
payload faults inside the inner phase.  The source captures the error of
TransactionToMessage at line 360 and never inspects it — err is
reassigned by the inner-phase call at line 366 — so a failed message
construction does not stop the phase; the constructed message only feeds
the EVM context, which does not influence any tracked output, so the call
is recorded and discarded here exactly as the source discards it. -/
def ApplyAlexfAATransactionValidationPhase (env : Env) (cnt : Nat) (tx : Transaction) :
    PhaseOutcome ValidationPhaseResult × Nat × List (FrameKind × Message) :=
  match tx.AlexfAATransactionData with
  | none => (PhaseOutcome.panic "nil pointer dereference", cnt, [])
  | some aatx =>
    let _discardedMessage := env.TransactionToMessage tx
    match applyAlexfAATransactionValidationPhase env cnt aatx with
    | (PhaseOutcome.ok vpr, c, tr) => (PhaseOutcome.ok { vpr with Tx := some tx }, c, tr)
    | other => other

/-- core.ApplyAlexfAATransactionExecutionPhase (lines 376-391).  vpr.Tx is
dereferenced first (the logging at line 378), then the message is
constructed; its error IS checked here (line 386) before the inner phase
runs — though only after the possibly-nil message has been handed to the
EVM context constructor, which does not influence any tracked output. -/
def ApplyAlexfAATransactionExecutionPhase (env : Env) (cnt : Nat)
    (vpr : ValidationPhaseResult) (blockNumber blockHash : Nat) :
    PhaseOutcome Receipt × Nat × List (FrameKind × Message) :=
  match vpr.Tx with
  | none => (PhaseOutcome.panic "nil pointer dereference", cnt, [])
  | some tx =>
    match env.TransactionToMessage tx with
    | Except.error e => (PhaseOutcome.err e, cnt, [])
    | Except.ok _message =>
        applyAlexfAATransactionExecutionPhase env cnt vpr blockNumber blockHash

/-- The first loop of Process (lines 86-94): AA validation for every
AA-typed transaction in block order; any error aborts. -/
def processValidationLoop (env : Env) :
    Nat → List Transaction →
    PhaseOutcome (List ValidationPhaseResult) × Nat × List (FrameKind × Message)
  | cnt, [] => (PhaseOutcome.ok [], cnt, [])
  | cnt, tx :: rest =>
    if tx.TxType = ALEXF_AA_TX_TYPE then
      match ApplyAlexfAATransactionValidationPhase env cnt tx with
      | (PhaseOutcome.panic s, c, tr) => (PhaseOutcome.panic s, c, tr)
      | (PhaseOutcome.err e, c, tr) => (PhaseOutcome.err e, c, tr)
      | (PhaseOutcome.ok vpr, c, tr) =>
        match processValidationLoop env c rest with
        | (PhaseOutcome.ok vprs, c2, tr2) => (PhaseOutcome.ok (vpr :: vprs), c2, tr ++ tr2)
        | (PhaseOutcome.err e, c2, tr2) => (PhaseOutcome.err e, c2, tr ++ tr2)
        | (PhaseOutcome.panic s, c2, tr2) => (PhaseOutcome.panic s, c2, tr ++ tr2)
    else
      processValidationLoop env cnt rest

/-- The second loop of Process (lines 95-102): AA execution over the
validation results, in validation order, collecting receipts. -/
def processExecutionLoop (env : Env) (blockNumber blockHash : Nat) :
    Nat → List ValidationPhaseResult →
    PhaseOutcome (List Receipt) × Nat × List (FrameKind × Message)
  | cnt, [] => (PhaseOutcome.ok [], cnt, [])
  | cnt, vpr :: rest =>
    match ApplyAlexfAATransactionExecutionPhase env cnt vpr blockNumber blockHash with
    | (PhaseOutcome.panic s, c, tr) => (PhaseOutcome.panic s, c, tr)
    | (PhaseOutcome.err e, c, tr) => (PhaseOutcome.err e, c, tr)
    | (PhaseOutcome.ok receipt, c, tr) =>
      match processExecutionLoop env blockNumber blockHash c rest with
      | (PhaseOutcome.ok rs, c2, tr2) => (PhaseOutcome.ok (receipt :: rs), c2, tr ++ tr2)
      | (PhaseOutcome.err e, c2, tr2) => (PhaseOutcome.err e, c2, tr ++ tr2)
      | (PhaseOutcome.panic s, c2, tr2) => (PhaseOutcome.panic s, c2, tr ++ tr2)

/-- The third loop of Process (lines 104-119): the legacy applier over the
block's transactions in original order, skipping AA-typed ones; i counts
every transaction (AA included), matching the range index; errors are
wrapped with the transaction index and hash.  Carries the usedGas
accumulator and returns it with the receipts. -/
def processLegacyLoop (env : Env) (blockNumber blockHash : Nat) :
    Nat → Nat → Nat → List Transaction →
    PhaseOutcome (List Receipt × Nat) × Nat × List (FrameKind × Message)
  | cnt, _i, usedGas, [] => (PhaseOutcome.ok ([], usedGas), cnt, [])
  | cnt, i, usedGas, tx :: rest =>
    if tx.TxType = ALEXF_AA_TX_TYPE then
      processLegacyLoop env blockNumber blockHash cnt (i + 1) usedGas rest
    else
      match env.TransactionToMessage tx with
      | Except.error e => (PhaseOutcome.err (GoError.wrapTx i tx.Hash e), cnt, [])
      | Except.ok msg =>
        match applyTransaction env cnt msg tx usedGas blockNumber blockHash i with
        | (Except.error e, c, tr) => (PhaseOutcome.err (GoError.wrapTx i tx.Hash e), c, tr)
        | (Except.ok (receipt, usedGas2), c, tr) =>
          match processLegacyLoop env blockNumber blockHash c (i + 1) usedGas2 rest with
          | (PhaseOutcome.ok (rs, g), c2, tr2) => (PhaseOutcome.ok (receipt :: rs, g), c2, tr ++ tr2)
          | (PhaseOutcome.err e, c2, tr2) => (PhaseOutcome.err e, c2, tr ++ tr2)
          | (PhaseOutcome.panic s, c2, tr2) => (PhaseOutcome.panic s, c2, tr ++ tr2)

/-- The four named return values of StateProcessor.Process, mirroring each
literal Go return site (receipts and logs are nil on every error path). -/
structure ProcessRet where
  receipts : Option (List Receipt)
  logs : Option (List Log)
  usedGas : Nat
  err : Option GoError
deriving DecidableEq

/-- The errors.New("withdrawals before shanghai") value (line 123). -/
def withdrawalsBeforeShanghaiError : GoError := GoError.msg "withdrawals before shanghai"

/-- StateProcessor.Process (lines 61-129).  The DAO hard-fork hook and the
beacon-root system call mutate only the external state, which this
embedding reaches through the oracles, so they contribute nothing to the
tracked outputs; the gas pool is owned by the ApplyMessage oracle.  After
the three loops, a non-empty withdrawals list under pre-Shanghai rules
fails the block (lines 120-124); otherwise the receipts, the concatenated
receipt logs and the accumulated legacy gas are returned. -/
def Process (env : Env) (block : Block) : GoResult ProcessRet × List (FrameKind × Message) :=
  match processValidationLoop env 0 block.Transactions with
  | (PhaseOutcome.panic s, _, tr1) => (GoResult.panic s, tr1)
  | (PhaseOutcome.err e, _, tr1) =>
      (GoResult.ret { receipts := none, logs := none, usedGas := 0, err := some e }, tr1)
  | (PhaseOutcome.ok vprs, c1, tr1) =>
    match processExecutionLoop env block.Number block.Hash c1 vprs with
    | (PhaseOutcome.panic s, _, tr2) => (GoResult.panic s, tr1 ++ tr2)
    | (PhaseOutcome.err e, _, tr2) =>
        (GoResult.ret { receipts := none, logs := none, usedGas := 0, err := some e }, tr1 ++ tr2)
    | (PhaseOutcome.ok aaReceipts, c2, tr2) =>
      match processLegacyLoop env block.Number block.Hash c2 0 0 block.Transactions with
      | (PhaseOutcome.panic s, _, tr3) => (GoResult.panic s, tr1 ++ tr2 ++ tr3)
      | (PhaseOutcome.err e, _, tr3) =>
          (GoResult.ret { receipts := none, logs := none, usedGas := 0, err := some e },
            tr1 ++ tr2 ++ tr3)
      | (PhaseOutcome.ok (legacyReceipts, usedGas), _, tr3) =>
        if 0 < block.Withdrawals.length ∧ env.IsShanghai = false then
          (GoResult.ret
            { receipts := none, logs := none, usedGas := 0,
              err := some withdrawalsBeforeShanghaiError }, tr1 ++ tr2 ++ tr3)
        else
          (GoResult.ret
            { receipts := some (aaReceipts ++ legacyReceipts),
              logs := some (((aaReceipts ++ legacyReceipts).map Receipt.Logs).flatten),
              usedGas := usedGas, err := none }, tr1 ++ tr2 ++ tr3)

/-- tests.stAuthorization: the authorization-tuple record.  ChainID, V, R
and S are big.Int pointers in Go, hence Option Int. -/
structure stAuthorization where
  ChainID : Option Int
  Address : Address
  Nonce : Nat
  V : Option Int
  R : Option Int
  S : Option Int
deriving DecidableEq

/-- The intermediate all-pointer struct used by the generated JSON codec:
after the generic encoding/json pass, each field is present (some) or
absent/null (none).  The generic layer is the Go standard library; this
record is its boundary contract (a missing or null JSON key leaves the
corresponding pointer nil). -/
structure stAuthorizationDec where
  ChainID : Option Int
  Address : Option (List Byte)
  Nonce : Option Nat
  V : Option Int
  R : Option Int
  S : Option Int
deriving DecidableEq

/-- tests/gen_stauthorization.go MarshalJSON (lines 17-34): every value
field of the enc struct is copied from the record; the Address and Nonce
values are always materialized, the pointer fields keep their (possible)
nilness. -/
def stAuthorization.MarshalJSON (s : stAuthorization) : stAuthorizationDec :=
  { ChainID := s.ChainID, Address := some s.Address, Nonce := some s.Nonce,
    V := s.V, R := s.R, S := s.S }

/-- tests/gen_stauthorization.go UnmarshalJSON (lines 37-74).  The receiver
is mutated field by field; a nil required pointer aborts with the
field-named error, leaving the fields assigned so far in place (the Go
method mutates *s before returning the error).  Returns the final receiver
state together with the optional error. -/
def stAuthorization.UnmarshalJSON (s : stAuthorization) (dec : stAuthorizationDec) :
    stAuthorization × Option GoError :=
  let s1 := match dec.ChainID with
    | some c => { s with ChainID := some c }
    | none => s
  match dec.Address with
  | none => (s1, some (GoError.msg "missing required field \x27address\x27 for stAuthorization"))
  | some a =>
    let s2 := { s1 with Address := a }
    match dec.Nonce with
    | none => (s2, some (GoError.msg "missing required field \x27nonce\x27 for stAuthorization"))
    | some n =>
      let s3 := { s2 with Nonce := n }
      match dec.V with
      | none => (s3, some (GoError.msg "missing required field \x27v\x27 for stAuthorization"))
      | some vv =>
        let s4 := { s3 with V := some vv }
        match dec.R with
        | none => (s4, some (GoError.msg "missing required field \x27r\x27 for stAuthorization"))
        | some rr =>
          let s5 := { s4 with R := some rr }
          match dec.S with
          | none => (s5, some (GoError.msg "missing required field \x27s\x27 for stAuthorization"))
          | some ss => ({ s5 with S := some ss }, none)

/-! ## Concrete fixtures used by witnesses and counterexamples -/

/-- A 20-byte sender address. -/
def senderAddr1 : Address := List.replicate 20 1

/-- A 20-byte paymaster blob: a non-zero sponsor address with no extra data. -/
def pmData1 : List Byte := List.replicate 20 2

/-- A 20-byte deployer blob: a non-zero deployer address. -/
def depData1 : List Byte := List.replicate 20 3

/-- An AA transaction payload with a sponsor and no deployer. -/
def aatx1 : AlexfAccountAbstractionTx :=
  { Sender := senderAddr1, DeployerData := [], PaymasterData := pmData1, AccessList := [] }

/-- An AA transaction payload with empty paymaster-data. -/
def aatx3 : AlexfAccountAbstractionTx :=
  { Sender := senderAddr1, DeployerData := [], PaymasterData := [], AccessList := [] }

/-- An AA transaction payload with both a deployer and a sponsor. -/
def aatx4 : AlexfAccountAbstractionTx :=
  { Sender := senderAddr1, DeployerData := depData1, PaymasterData := pmData1, AccessList := [] }

/-- An AA-typed transaction carrying aatx1. -/
def tx1 : Transaction :=
  { TxType := ALEXF_AA_TX_TYPE, Hash := 7, Nonce := 0, BlobHashes := [],
    AlexfAATransactionData := some aatx1 }

/-- A legacy transaction. -/
def txL1 : Transaction :=
  { TxType := 0, Hash := 3, Nonce := 1, BlobHashes := [], AlexfAATransactionData := none }

/-- A successful frame result. -/
def okResult : ExecutionResult := { Failed := false, ReturnData := [], UsedGas := 0 }

/-- A reverted frame result (result.Failed() = true). -/
def failedResult : ExecutionResult := { Failed := true, ReturnData := [], UsedGas := 0 }

/-- The message the fixture TransactionToMessage yields for legacy runs. -/
def legacyMsg1 : Message :=
  { From := senderAddr1, To := some senderAddr1, Value := some 0, GasLimit := 21000,
    GasPrice := some 1, GasFeeCap := some 1, GasTipCap := some 1, Data := [],
    AccessList := [], SkipAccountChecks := false, IsInnerAATxFrame := false }

/-- Baseline environment: every frame succeeds with an empty result. -/
def envOk : Env :=
  { ApplyMessage := fun _ _ => Except.ok okResult,
    TransactionToMessage := fun _ => Except.ok legacyMsg1,
    GetLogs := fun _ _ _ => [],
    IntermediateRoot := fun _ => [],
    CreateAddress := fun a _ => a,
    CreateBloom := fun _ => 0,
    BlobBaseFee := 0, IsByzantium := true, IsEIP158 := true, IsShanghai := true }

/-- Environment in which the third ApplyMessage invocation (the sponsor
validation frame of aatx1) reverts. -/
def env1 : Env :=
  { envOk with ApplyMessage := fun n _ =>
      if n = 2 then Except.ok failedResult else Except.ok okResult }

/-- A block holding only the AA transaction tx1. -/
def block1 : Block :=
  { Transactions := [tx1], Withdrawals := [], Number := 1, Hash := 10, Time := 0,
    GasLimit := 1000000 }

/-- Environment in which every ApplyMessage invocation fails outright. -/
def env5 : Env :=
  { envOk with ApplyMessage := fun _ _ => Except.error (GoError.msg "boom") }

/-- Environment in which message construction fails. -/
def env10 : Env :=
  { envOk with TransactionToMessage := fun _ => Except.error (GoError.msg "bad tx") }

/-- A validation result linked to tx1 with the (always-empty) context. -/
def vpr10 : ValidationPhaseResult :=
  { Tx := some tx1, paymasterContext := [], validationGasUsed := 0, paymasterGasUsed := 0 }

/-- Pre-Shanghai environment, all frames succeeding. -/
def env6 : Env := { envOk with IsShanghai := false }

/-- An empty block declaring one withdrawal. -/
def block6 : Block :=
  { Transactions := [], Withdrawals := [0], Number := 1, Hash := 11, Time := 0,
    GasLimit := 1000000 }

/-- Environment whose frames each consume 7 gas. -/
def env7 : Env :=
  { envOk with ApplyMessage := fun _ _ =>
      Except.ok { Failed := false, ReturnData := [], UsedGas := 7 } }

/-- A block holding only the legacy transaction txL1. -/
def block7 : Block :=
  { Transactions := [txL1], Withdrawals := [], Number := 1, Hash := 12, Time := 0,
    GasLimit := 1000000 }

/-- Number of ApplyMessage invocations preceding the account-validation
frame of the validation phase: the nonce-manager frame plus, when the
deployer guard holds, the deployer frame. -/
def deployerShift (aatx : AlexfAccountAbstractionTx) : Nat :=
  if deployerCond aatx then 2 else 1

/-- The frames invoked by the validation phase on the path where the
sponsor-validation frame reverts. -/
def validationSponsorFailTrace (aatx : AlexfAccountAbstractionTx) :
    List (FrameKind × Message) :=
  (if deployerCond aatx then
    [(FrameKind.nonceManager, nonceManagerMsg aatx), (FrameKind.deployer, emptyMessage)]
  else [(FrameKind.nonceManager, nonceManagerMsg aatx)]) ++
  [(FrameKind.accountValidation, accountValidationMsg aatx),
   (FrameKind.paymasterValidation, paymasterMsg aatx)]

/-- A prior receiver state for the JSON decoder fixtures. -/
def s0 : stAuthorization :=
  { ChainID := none, Address := zeroAddress, Nonce := 0, V := none, R := none, S := none }

/-- Decoded JSON fields with only the nonce absent. -/
def decNoNonce : stAuthorizationDec :=
  { ChainID := some 1, Address := some (List.replicate 20 170), Nonce := none,
    V := some 1, R := some 2, S := some 3 }

/-- Decoded JSON fields with only the chain id absent. -/
def decFull : stAuthorizationDec :=
  { ChainID := none, Address := some (List.replicate 20 170), Nonce := some 5,
    V := some 1, R := some 2, S := some 3 }

/-- The fully-populated authorization tuple of the round-trip fixture:
chainId 1, address 0xAAAA...AAAA (20 bytes of 0xAA = 170), nonce 5, v 1,
r 2, s 3. -/
def recA : stAuthorization :=
  { ChainID := some 1, Address := List.replicate 20 170, Nonce := 5,
    V := some 1, R := some 2, S := some 3 }

/-- The receipt the legacy applier produces for txL1 under env7 in block7
(7 gas consumed from a zero accumulator). -/
def receiptL1 : Receipt :=
  { TxType := 0, PostState := [], CumulativeGasUsed := 7,
    Status := ReceiptStatusSuccessful, TxHash := 3, GasUsed := 7,
    BlobGasUsed := 0, BlobGasPrice := 0, ContractAddress := none,
    Logs := [], Bloom := 0, BlockHash := 12, BlockNumber := 1,
    TransactionIndex := 0 }

/-- A second legacy transaction. -/
def txL2 : Transaction :=
  { TxType := 0, Hash := 4, Nonce := 2, BlobHashes := [], AlexfAATransactionData := none }

/-- Environment whose frames each report 2^63 gas used, so that two legacy
transactions wrap the uint64 usedGas accumulator. -/
def envW : Env :=
  { envOk with ApplyMessage := fun _ _ =>
      Except.ok { Failed := false, ReturnData := [], UsedGas := 9223372036854775808 } }

/-- A block with two legacy transactions. -/
def blockW : Block :=
  { Transactions := [txL1, txL2], Withdrawals := [], Number := 1, Hash := 13, Time := 0,
    GasLimit := 1000000 }

/-- The first receipt of blockW under envW: cumulative gas 2^63. -/
def rW1 : Receipt :=
  { TxType := 0, PostState := [], CumulativeGasUsed := 9223372036854775808,
    Status := ReceiptStatusSuccessful, TxHash := 3, GasUsed := 9223372036854775808,
    BlobGasUsed := 0, BlobGasPrice := 0, ContractAddress := none, Logs := [],
    Bloom := 0, BlockHash := 13, BlockNumber := 1, TransactionIndex := 0 }

/-- The second receipt of blockW under envW: the uint64 accumulator wraps
to 0, below the first receipt's cumulative gas. -/
def rW2 : Receipt :=
  { TxType := 0, PostState := [], CumulativeGasUsed := 0,
    Status := ReceiptStatusSuccessful, TxHash := 4, GasUsed := 9223372036854775808,
    BlobGasUsed := 0, BlobGasPrice := 0, ContractAddress := none, Logs := [],
    Bloom := 0, BlockHash := 13, BlockNumber := 1, TransactionIndex := 1 }

/-! ## Claim theorems -/

/-- C3 (code evaluated at the failing input): an AA transaction with empty
paymaster-data indeed never reaches a sponsor-validation or post-operation
frame, but only because the validation phase faults outright — building
the nonce-manager payload PaymasterData[20:] panics before any call frame
is invoked, instead of completing without fault as claimed. -/
theorem empty_paymaster_data_panics :
    aatx3.PaymasterData = [] ∧
    applyAlexfAATransactionValidationPhase envOk 0 aatx3 =
      (PhaseOutcome.panic "slice bounds out of range", 0, []) := by
  exact ⟨rfl, rfl⟩

/-- C2 counterexample: with a sponsor participating in validation
(paymaster-data of 20 bytes; the sponsor-validation frame is invoked and
succeeds), the produced ValidationPhaseResult still carries an empty
paymasterContext — refuting "non-empty iff a sponsor participated". -/
theorem paymaster_context_empty_counterexample :
    20 ≤ aatx1.PaymasterData.length ∧
    (applyAlexfAATransactionValidationPhase envOk 0 aatx1).2.2 =
      [(FrameKind.nonceManager, nonceManagerMsg aatx1),
       (FrameKind.accountValidation, accountValidationMsg aatx1),
       (FrameKind.paymasterValidation, paymasterMsg aatx1)] ∧
    (applyAlexfAATransactionValidationPhase envOk 0 aatx1).1 =
      PhaseOutcome.ok
        { Tx := none, paymasterContext := [], validationGasUsed := 0,
          paymasterGasUsed := 0 } := by
  exact ⟨by decide, rfl, rfl⟩

/-- C4 counterexample: with deployer-data carrying a non-zero 20-byte
address, the deployer frame is invoked, but its message is the zero
Message literal, whose recipient is nil — not the deployer address. -/
theorem deployer_frame_empty_message_counterexample :
    deployerCond aatx4 = true ∧
    (applyAlexfAATransactionValidationPhase envOk 0 aatx4).2.2 =
      [(FrameKind.nonceManager, nonceManagerMsg aatx4),
       (FrameKind.deployer, emptyMessage),
       (FrameKind.accountValidation, accountValidationMsg aatx4),
       (FrameKind.paymasterValidation, paymasterMsg aatx4)] ∧
    emptyMessage.To = none ∧
    emptyMessage.To ≠ some (aatx4.DeployerData.take 20) := by
  exact ⟨by decide, rfl, rfl, by decide⟩

/-- C5 counterexample: an error arising in the AA validation phase aborts
Process with no receipts, no logs and zero gas, but the returned error is
the raw inner error, not one annotated with the transaction index and
hash. -/
theorem aa_error_unannotated_counterexample :
    (Process env5 block1).1 =
      GoResult.ret
        { receipts := none, logs := none, usedGas := 0,
          err := some (GoError.msg "boom") } ∧
    GoError.isWrapped (GoError.msg "boom") = false := by
  exact ⟨rfl, rfl⟩

/-- C10 (code evaluated at the failing input): when TransactionToMessage
fails, ApplyAlexfAATransactionValidationPhase does not return the
construction error — it proceeds, invokes the inner validation frames and
returns the inner result — whereas ApplyAlexfAATransactionExecutionPhase
does return that error without invoking any execution frame. -/
theorem construction_error_handling_at_failing_input :
    env10.TransactionToMessage tx1 = Except.error (GoError.msg "bad tx") ∧
    (ApplyAlexfAATransactionValidationPhase env10 0 tx1).1 = PhaseOutcome.ok vpr10 ∧
    (ApplyAlexfAATransactionValidationPhase env10 0 tx1).2.2 ≠ [] ∧
    (ApplyAlexfAATransactionExecutionPhase env10 0 vpr10 1 1).1 =
      PhaseOutcome.err (GoError.msg "bad tx") ∧
    (ApplyAlexfAATransactionExecutionPhase env10 0 vpr10 1 1).2.2 = [] := by
  exact ⟨rfl, rfl, by decide, rfl, rfl⟩

/-- C8: decoding fails with the field-named error for whichever single
required field (address, nonce, v, r, s) is absent while the others are
present, and an input omitting only the chain id decodes without error. -/
theorem stauthorization_missing_field_errors (s : stAuthorization) (dec : stAuthorizationDec) :
    (dec.Address = none → dec.Nonce.isSome = true → dec.V.isSome = true →
      dec.R.isSome = true → dec.S.isSome = true →
      (stAuthorization.UnmarshalJSON s dec).2 =
        some (GoError.msg "missing required field \x27address\x27 for stAuthorization")) ∧
    (dec.Address.isSome = true → dec.Nonce = none → dec.V.isSome = true →
      dec.R.isSome = true → dec.S.isSome = true →
      (stAuthorization.UnmarshalJSON s dec).2 =
        some (GoError.msg "missing required field \x27nonce\x27 for stAuthorization")) ∧
    (dec.Address.isSome = true → dec.Nonce.isSome = true → dec.V = none →
      dec.R.isSome = true → dec.S.isSome = true →
      (stAuthorization.UnmarshalJSON s dec).2 =
        some (GoError.msg "missing required field \x27v\x27 for stAuthorization")) ∧
    (dec.Address.isSome = true → dec.Nonce.isSome = true → dec.V.isSome = true →
      dec.R = none → dec.S.isSome = true →
      (stAuthorization.UnmarshalJSON s dec).2 =
        some (GoError.msg "missing required field \x27r\x27 for stAuthorization")) ∧
    (dec.Address.isSome = true → dec.Nonce.isSome = true → dec.V.isSome = true →
      dec.R.isSome = true → dec.S = none →
      (stAuthorization.UnmarshalJSON s dec).2 =
        some (GoError.msg "missing required field \x27s\x27 for stAuthorization")) ∧
    (dec.ChainID = none → dec.Address.isSome = true → dec.Nonce.isSome = true →
      dec.V.isSome = true → dec.R.isSome = true → dec.S.isSome = true →
      (stAuthorization.UnmarshalJSON s dec).2 = none) := by
  obtain ⟨cID, addrF, nonF, vF, rF, sF⟩ := dec
  refine ⟨?_, ?_, ?_, ?_, ?_, ?_⟩
  · rintro rfl _ _ _ _
    cases cID <;> simp [stAuthorization.UnmarshalJSON]
  · rintro hA rfl _ _ _
    obtain ⟨a, rfl⟩ := Option.isSome_iff_exists.mp hA
    cases cID <;> simp [stAuthorization.UnmarshalJSON]
  · rintro hA hN rfl _ _
    obtain ⟨a, rfl⟩ := Option.isSome_iff_exists.mp hA
    obtain ⟨n, rfl⟩ := Option.isSome_iff_exists.mp hN
    cases cID <;> simp [stAuthorization.UnmarshalJSON]
  · rintro hA hN hV rfl _
    obtain ⟨a, rfl⟩ := Option.isSome_iff_exists.mp hA
    obtain ⟨n, rfl⟩ := Option.isSome_iff_exists.mp hN
    obtain ⟨vv, rfl⟩ := Option.isSome_iff_exists.mp hV
    cases cID <;> simp [stAuthorization.UnmarshalJSON]
  · rintro hA hN hV hR rfl
    obtain ⟨a, rfl⟩ := Option.isSome_iff_exists.mp hA
    obtain ⟨n, rfl⟩ := Option.isSome_iff_exists.mp hN
    obtain ⟨vv, rfl⟩ := Option.isSome_iff_exists.mp hV
    obtain ⟨rr, rfl⟩ := Option.isSome_iff_exists.mp hR
    cases cID <;> simp [stAuthorization.UnmarshalJSON]
  · rintro rfl hA hN hV hR hS
    obtain ⟨a, rfl⟩ := Option.isSome_iff_exists.mp hA
    obtain ⟨n, rfl⟩ := Option.isSome_iff_exists.mp hN
    obtain ⟨vv, rfl⟩ := Option.isSome_iff_exists.mp hV
    obtain ⟨rr, rfl⟩ := Option.isSome_iff_exists.mp hR
    obtain ⟨ss, rfl⟩ := Option.isSome_iff_exists.mp hS
    simp [stAuthorization.UnmarshalJSON]

/-- C8 witness: the nonce-missing input fails with the nonce-naming error;
the input omitting only the chain id decodes without error. -/
theorem stauthorization_missing_field_errors_witness :
    (stAuthorization.UnmarshalJSON s0 decNoNonce).2 =
      some (GoError.msg "missing required field \x27nonce\x27 for stAuthorization") ∧
    (stAuthorization.UnmarshalJSON s0 decFull).2 = none := by
  exact ⟨(stauthorization_missing_field_errors s0 decNoNonce).2.1 rfl rfl rfl rfl rfl,
         (stauthorization_missing_field_errors s0 decFull).2.2.2.2.2 rfl rfl rfl rfl rfl rfl⟩

/-- C9: encoding a fully-populated authorization tuple and decoding the
result yields the original record, with no error, from any prior receiver
state. -/
theorem stauthorization_roundtrip (prior rec : stAuthorization)
    (hc : rec.ChainID.isSome = true) (hv : rec.V.isSome = true)
    (hr : rec.R.isSome = true) (hs : rec.S.isSome = true) :
    stAuthorization.UnmarshalJSON prior (stAuthorization.MarshalJSON rec) = (rec, none) := by
  obtain ⟨cO, a, n, vO, rO, sO⟩ := rec
  obtain ⟨c, rfl⟩ := Option.isSome_iff_exists.mp hc
  obtain ⟨vv, rfl⟩ := Option.isSome_iff_exists.mp hv
  obtain ⟨rr, rfl⟩ := Option.isSome_iff_exists.mp hr
  obtain ⟨ss, rfl⟩ := Option.isSome_iff_exists.mp hs
  simp [stAuthorization.MarshalJSON, stAuthorization.UnmarshalJSON]

/-- C9 witness: the round trip at the spec's concrete tuple
(chainId 1, address of 20 0xAA bytes, nonce 5, v 1, r 2, s 3). -/
theorem stauthorization_roundtrip_witness :
    stAuthorization.UnmarshalJSON s0 (stAuthorization.MarshalJSON recA) = (recA, none) :=
  stauthorization_roundtrip s0 recA rfl rfl rfl rfl

/-- C6: a block with a non-empty withdrawals list under pre-Shanghai rules
makes Process fail with the fork-policy error and return no receipts, no
logs and zero gas (given the three transaction loops themselves raise no
error, so that control reaches the withdrawals check). -/
theorem process_withdrawals_before_shanghai
    (env : Env) (block : Block) (vprs : List ValidationPhaseResult)
    (aaRs lRs : List Receipt) (g c1 c2 c3 : Nat)
    (tr1 tr2 tr3 : List (FrameKind × Message))
    (hw : 0 < block.Withdrawals.length)
    (hsh : env.IsShanghai = false)
    (hv : processValidationLoop env 0 block.Transactions = (PhaseOutcome.ok vprs, c1, tr1))
    (he : processExecutionLoop env block.Number block.Hash c1 vprs =
      (PhaseOutcome.ok aaRs, c2, tr2))
    (hl : processLegacyLoop env block.Number block.Hash c2 0 0 block.Transactions =
      (PhaseOutcome.ok (lRs, g), c3, tr3)) :
    (Process env block).1 =
      GoResult.ret
        { receipts := none, logs := none, usedGas := 0,
          err := some withdrawalsBeforeShanghaiError } := by
  unfold Process
  simp only [hv, he, hl]
  rw [if_pos ⟨hw, hsh⟩]

/-- C6 witness: an empty block declaring one withdrawal under pre-Shanghai
rules. -/
theorem process_withdrawals_before_shanghai_witness :
    (Process env6 block6).1 =
      GoResult.ret
        { receipts := none, logs := none, usedGas := 0,
          err := some withdrawalsBeforeShanghaiError } :=
  process_withdrawals_before_shanghai env6 block6 [] [] [] 0 0 0 0 [] [] []
    (by decide) rfl rfl rfl rfl

/-- Transactions that are not AA-typed are skipped by the validation
loop. -/
theorem processValidationLoop_skip (env : Env) (cnt : Nat) (pre rest : List Transaction)
    (h : ∀ t ∈ pre, t.TxType ≠ ALEXF_AA_TX_TYPE) :
    processValidationLoop env cnt (pre ++ rest) = processValidationLoop env cnt rest := by
  induction pre with
  | nil => rfl
  | cons t ts ih =>
    rw [List.cons_append]
    show (if t.TxType = ALEXF_AA_TX_TYPE then _ else processValidationLoop env cnt (ts ++ rest)) = _
    rw [if_neg (h t (List.mem_cons_self t ts))]
    exact ih (fun u hu => h u (List.mem_cons_of_mem t hu))

/-- When the account-validation frame succeeds and the sponsor-validation
frame reverts, the validation tail fails with the distinct sponsor
error. -/
theorem validationTail_sponsor_failure (env : Env) (cnt : Nat)
    (aatx : AlexfAccountAbstractionTx) (rav rpm : ExecutionResult)
    (h20 : 20 ≤ aatx.PaymasterData.length)
    (hav : env.ApplyMessage cnt (accountValidationMsg aatx) = Except.ok rav)
    (hpm : env.ApplyMessage (cnt + 1) (paymasterMsg aatx) = Except.ok rpm)
    (hfail : rpm.Failed = true) :
    validationTail env cnt aatx =
      (PhaseOutcome.err paymasterValidationFailedError, cnt + 2,
        [(FrameKind.accountValidation, accountValidationMsg aatx),
         (FrameKind.paymasterValidation, paymasterMsg aatx)]) := by
  unfold validationTail
  simp only [hav, hpm, hfail, if_pos h20, if_true]

/-- When every frame before the sponsor-validation frame succeeds and that
frame reverts, the inner validation phase fails with the distinct sponsor
error after invoking exactly the leading frames. -/
theorem validation_phase_sponsor_failure (env : Env) (cnt : Nat)
    (aatx : AlexfAccountAbstractionTx) (rnm rdep rav rpm : ExecutionResult)
    (h20 : 20 ≤ aatx.PaymasterData.length)
    (hnm : env.ApplyMessage cnt (nonceManagerMsg aatx) = Except.ok rnm)
    (hdep : deployerCond aatx = true → env.ApplyMessage (cnt + 1) emptyMessage = Except.ok rdep)
    (hav : env.ApplyMessage (cnt + deployerShift aatx) (accountValidationMsg aatx) =
      Except.ok rav)
    (hpm : env.ApplyMessage (cnt + deployerShift aatx + 1) (paymasterMsg aatx) =
      Except.ok rpm)
    (hfail : rpm.Failed = true) :
    applyAlexfAATransactionValidationPhase env cnt aatx =
      (PhaseOutcome.err paymasterValidationFailedError, cnt + deployerShift aatx + 2,
        validationSponsorFailTrace aatx) := by
  unfold applyAlexfAATransactionValidationPhase
  rw [if_neg (Nat.not_lt.mpr h20)]
  by_cases hd : deployerCond aatx = true
  · simp only [deployerShift, hd, if_true] at hav hpm
    simp only [hnm, hd, if_true, hdep hd]
    rw [validationTail_sponsor_failure env (cnt + 2) aatx rav rpm h20 hav hpm hfail]
    simp [prependTrace, validationSponsorFailTrace, deployerShift, hd]
  · replace hd : deployerCond aatx = false := by
      cases hc : deployerCond aatx
      · rfl
      · exact absurd hc hd
    simp only [deployerShift, hd, if_false, Bool.false_eq_true] at hav hpm
    simp only [hnm, hd, Bool.false_eq_true, if_false]
    rw [validationTail_sponsor_failure env (cnt + 1) aatx rav rpm h20 hav hpm hfail]
    simp [prependTrace, validationSponsorFailTrace, deployerShift, hd]

/-- C1: for an AA transaction with paymaster-data present (at least 20
bytes) placed after any prefix of non-AA transactions, if its
sponsor-validation frame reports failure (with the preceding frames
succeeding), the validation phase returns the distinct sponsor-validation
error, Process aborts returning that error with no receipts, no logs and
zero gas, and no execution-phase or legacy frame is invoked — in
particular no receipt for this transaction is produced. -/
theorem aa_sponsor_validation_failure_aborts
    (env : Env) (block : Block) (pre post : List Transaction)
    (tx : Transaction) (aatx : AlexfAccountAbstractionTx)
    (rnm rdep rav rpm : ExecutionResult)
    (hblock : block.Transactions = pre ++ tx :: post)
    (hpre : ∀ t ∈ pre, t.TxType ≠ ALEXF_AA_TX_TYPE)
    (htype : tx.TxType = ALEXF_AA_TX_TYPE)
    (hdata : tx.AlexfAATransactionData = some aatx)
    (h20 : 20 ≤ aatx.PaymasterData.length)
    (hnm : env.ApplyMessage 0 (nonceManagerMsg aatx) = Except.ok rnm)
    (hdep : deployerCond aatx = true → env.ApplyMessage 1 emptyMessage = Except.ok rdep)
    (hav : env.ApplyMessage (deployerShift aatx) (accountValidationMsg aatx) = Except.ok rav)
    (hpm : env.ApplyMessage (deployerShift aatx + 1) (paymasterMsg aatx) = Except.ok rpm)
    (hfail : rpm.Failed = true) :
    (applyAlexfAATransactionValidationPhase env 0 aatx).1 =
      PhaseOutcome.err paymasterValidationFailedError ∧
    (Process env block).1 =
      GoResult.ret
        { receipts := none, logs := none, usedGas := 0,
          err := some paymasterValidationFailedError } ∧
    ∀ p ∈ (Process env block).2,
      p.1 ≠ FrameKind.accountExecution ∧ p.1 ≠ FrameKind.paymasterPostOp ∧
        p.1 ≠ FrameKind.legacyTx := by
  have hav0 : env.ApplyMessage (0 + deployerShift aatx) (accountValidationMsg aatx) =
      Except.ok rav := by
    rw [Nat.zero_add]; exact hav
  have hpm0 : env.ApplyMessage (0 + deployerShift aatx + 1) (paymasterMsg aatx) =
      Except.ok rpm := by
    rw [Nat.zero_add]; exact hpm
  have hval := validation_phase_sponsor_failure env 0 aatx rnm rdep rav rpm h20 hnm hdep
    hav0 hpm0 hfail
  have hloop : processValidationLoop env 0 block.Transactions =
      (PhaseOutcome.err paymasterValidationFailedError, 0 + deployerShift aatx + 2,
        validationSponsorFailTrace aatx) := by
    rw [hblock, processValidationLoop_skip env 0 pre (tx :: post) hpre]
    simp only [processValidationLoop, htype, if_true]
    simp only [ApplyAlexfAATransactionValidationPhase, hdata, hval]
  have hProcess : Process env block =
      (GoResult.ret
        { receipts := none, logs := none, usedGas := 0,
          err := some paymasterValidationFailedError },
        validationSponsorFailTrace aatx) := by
    unfold Process
    simp only [hloop]
  refine ⟨by rw [hval], by rw [hProcess], ?_⟩
  intro p hp
  have hp2 : p ∈ validationSponsorFailTrace aatx := by
    rw [hProcess] at hp; exact hp
  unfold validationSponsorFailTrace at hp2
  by_cases hd : deployerCond aatx = true
  · rw [if_pos hd] at hp2
    simp only [List.cons_append, List.nil_append, List.mem_cons,
      List.not_mem_nil, or_false] at hp2
    rcases hp2 with h | h | h | h <;> subst h <;>
      exact ⟨by simp, by simp, by simp⟩
  · rw [if_neg hd] at hp2
    simp only [List.cons_append, List.nil_append, List.mem_cons,
      List.not_mem_nil, or_false] at hp2
    rcases hp2 with h | h | h <;> subst h <;>
      exact ⟨by simp, by simp, by simp⟩

/-- C1 witness: the sponsor-validation frame of aatx1 reverts in env1, so
the validation phase returns the distinct sponsor error and Process on the
one-transaction block aborts with it and no receipts. -/
theorem aa_sponsor_validation_failure_aborts_witness :
    (applyAlexfAATransactionValidationPhase env1 0 aatx1).1 =
      PhaseOutcome.err paymasterValidationFailedError ∧
    (Process env1 block1).1 =
      GoResult.ret
        { receipts := none, logs := none, usedGas := 0,
          err := some paymasterValidationFailedError } := by
  have h := aa_sponsor_validation_failure_aborts env1 block1 [] [] tx1 aatx1
    okResult okResult okResult failedResult rfl
    (fun t ht => absurd ht (List.not_mem_nil t)) rfl rfl (by decide)
    rfl (fun hc => absurd hc (by decide)) rfl rfl rfl
  exact ⟨h.1, h.2.1⟩

/-- A validation result extracted from a successful validation tail always
carries the empty paymasterContext. -/
theorem validationTail_ok_context (env : Env) (cnt : Nat)
    (aatx : AlexfAccountAbstractionTx) (vpr : ValidationPhaseResult)
    (h : (validationTail env cnt aatx).1 = PhaseOutcome.ok vpr) :
    vpr.paymasterContext = [] := by
  unfold validationTail at h
  split at h
  · simp at h
  · split at h
    · split at h
      · simp at h
      · split at h
        · simp at h
        · simp only [PhaseOutcome.ok.injEq] at h
          rw [← h]
    · simp only [PhaseOutcome.ok.injEq] at h
      rw [← h]

/-- C2 (amended): the ValidationPhaseResult produced by a successful
validation phase always carries an empty paymasterContext — the source
never stores the sponsor call's context — even when a sponsor
participated; and the execution phase runs the sponsor post-operation
frame if and only if the context it is handed is non-empty, that frame
targeting the 20-byte sponsor address from the paymaster-data with the
context as its payload. -/
theorem paymaster_context_and_postop_amended :
    (∀ (env : Env) (cnt : Nat) (aatx : AlexfAccountAbstractionTx)
       (vpr : ValidationPhaseResult) (c : Nat) (tr : List (FrameKind × Message)),
       applyAlexfAATransactionValidationPhase env cnt aatx = (PhaseOutcome.ok vpr, c, tr) →
       vpr.paymasterContext = []) ∧
    (∀ (env : Env) (cnt : Nat) (vpr : ValidationPhaseResult) (tx : Transaction)
       (aatx : AlexfAccountAbstractionTx) (bn bh : Nat) (r : ExecutionResult),
       vpr.Tx = some tx → tx.AlexfAATransactionData = some aatx →
       env.ApplyMessage cnt (accountExecutionMsg aatx) = Except.ok r →
       (vpr.paymasterContext ≠ [] → 20 ≤ aatx.PaymasterData.length) →
       ((vpr.paymasterContext = [] →
          (applyAlexfAATransactionExecutionPhase env cnt vpr bn bh).2.2 =
            [(FrameKind.accountExecution, accountExecutionMsg aatx)]) ∧
        (vpr.paymasterContext ≠ [] →
          (applyAlexfAATransactionExecutionPhase env cnt vpr bn bh).2.2 =
            [(FrameKind.accountExecution, accountExecutionMsg aatx),
             (FrameKind.paymasterPostOp, paymasterPostOpMsg aatx vpr)]))) ∧
    (∀ (aatx : AlexfAccountAbstractionTx) (vpr : ValidationPhaseResult),
       (paymasterPostOpMsg aatx vpr).To = some (aatx.PaymasterData.take 20) ∧
       (paymasterPostOpMsg aatx vpr).Data = vpr.paymasterContext) := by
  refine ⟨?_, ?_, fun _ _ => ⟨rfl, rfl⟩⟩
  · intro env cnt aatx vpr c tr h
    have h1 : (applyAlexfAATransactionValidationPhase env cnt aatx).1 =
        PhaseOutcome.ok vpr := by rw [h]
    unfold applyAlexfAATransactionValidationPhase at h1
    split at h1
    · simp at h1
    · split at h1
      · simp at h1
      · split at h1
        · split at h1
          · simp at h1
          · simp only [prependTrace] at h1
            exact validationTail_ok_context _ _ _ _ h1
        · simp only [prependTrace] at h1
          exact validationTail_ok_context _ _ _ _ h1
  · intro env cnt vpr tx aatx bn bh r hTx hData happ h20c
    constructor
    · intro hctx
      simp [applyAlexfAATransactionExecutionPhase, hTx, hData, happ, hctx]
    · intro hctx
      have hlen : vpr.paymasterContext.length ≠ 0 := by
        intro h0
        exact hctx (List.length_eq_zero.mp h0)
      have h20 := h20c hctx
      cases hpo : env.ApplyMessage (cnt + 1) (paymasterPostOpMsg aatx vpr) with
      | error e =>
        simp [applyAlexfAATransactionExecutionPhase, hTx, hData, happ, hlen,
          Nat.not_lt.mpr h20, hpo]
      | ok rr =>
        simp [applyAlexfAATransactionExecutionPhase, hTx, hData, happ, hlen,
          Nat.not_lt.mpr h20, hpo]

/-- C2 amended witness: the successful validation of aatx1 (sponsor
present) yields the empty context, and the execution phase on the
empty-context result invokes only the self-execution frame. -/
theorem paymaster_context_and_postop_amended_witness :
    ({ Tx := none, paymasterContext := [], validationGasUsed := 0,
       paymasterGasUsed := 0 } : ValidationPhaseResult).paymasterContext = [] ∧
    (applyAlexfAATransactionExecutionPhase envOk 0 vpr10 1 1).2.2 =
      [(FrameKind.accountExecution, accountExecutionMsg aatx1)] ∧
    (paymasterPostOpMsg aatx1 vpr10).To = some (aatx1.PaymasterData.take 20) := by
  refine ⟨paymaster_context_and_postop_amended.1 envOk 0 aatx1 _ 3
      [(FrameKind.nonceManager, nonceManagerMsg aatx1),
       (FrameKind.accountValidation, accountValidationMsg aatx1),
       (FrameKind.paymasterValidation, paymasterMsg aatx1)] rfl,
    (paymaster_context_and_postop_amended.2.1 envOk 0 vpr10 tx1 aatx1 1 1 okResult
      rfl rfl rfl (fun hc => absurd rfl hc)).1 rfl,
    (paymaster_context_and_postop_amended.2.2 aatx1 vpr10).1⟩

/-- The validation tail only ever invokes account-validation and
sponsor-validation frames, never a deployer frame. -/
theorem validationTail_no_deployer (env : Env) (cnt : Nat)
    (aatx : AlexfAccountAbstractionTx) :
    ∀ p ∈ (validationTail env cnt aatx).2.2, p.1 ≠ FrameKind.deployer := by
  intro p hp
  unfold validationTail at hp
  split at hp
  · simp at hp; subst hp; simp
  · split at hp
    · split at hp
      · simp at hp
        rcases hp with h | h <;> subst h <;> simp
      · split at hp <;>
          (simp at hp; rcases hp with h | h <;> subst h <;> simp)
    · simp at hp; subst hp; simp

/-- C4 (amended): given the nonce-manager frame completes (and the
paymaster-data is long enough for the phase to start), the deployer frame
is invoked exactly when deployer-data has at least 20 bytes with a
non-zero address prefix — but the message it invokes is the zero-valued
empty message, whose recipient is nil, not the deployer address. -/
theorem deployer_invocation_condition_amended
    (env : Env) (cnt : Nat) (aatx : AlexfAccountAbstractionTx) (rnm : ExecutionResult)
    (h20 : 20 ≤ aatx.PaymasterData.length)
    (hnm : env.ApplyMessage cnt (nonceManagerMsg aatx) = Except.ok rnm) :
    (deployerCond aatx = true →
      ∃ rest, (applyAlexfAATransactionValidationPhase env cnt aatx).2.2 =
        (FrameKind.nonceManager, nonceManagerMsg aatx) ::
          (FrameKind.deployer, emptyMessage) :: rest) ∧
    (deployerCond aatx = false →
      ∀ p ∈ (applyAlexfAATransactionValidationPhase env cnt aatx).2.2,
        p.1 ≠ FrameKind.deployer) ∧
    emptyMessage.To = none := by
  refine ⟨?_, ?_, rfl⟩
  · intro hd
    unfold applyAlexfAATransactionValidationPhase
    rw [if_neg (Nat.not_lt.mpr h20)]
    cases hdep : env.ApplyMessage (cnt + 1) emptyMessage with
    | error e =>
      refine ⟨[], ?_⟩
      simp [hnm, hd, hdep]
    | ok rdep =>
      refine ⟨(validationTail env (cnt + 2) aatx).2.2, ?_⟩
      simp [hnm, hd, hdep, prependTrace]
  · intro hd p hp
    unfold applyAlexfAATransactionValidationPhase at hp
    rw [if_neg (Nat.not_lt.mpr h20)] at hp
    simp only [hnm, hd, Bool.false_eq_true, if_false, prependTrace] at hp
    simp only [List.cons_append, List.nil_append, List.mem_cons] at hp
    rcases hp with h | h
    · subst h; simp
    · exact validationTail_no_deployer env (cnt + 1) aatx p h

/-- C4 amended witness: for aatx4 (non-zero deployer address, sponsor
present) under the all-succeeding environment, the trace begins with the
nonce-manager frame followed by the deployer frame carrying the empty
message. -/
theorem deployer_invocation_condition_amended_witness :
    (applyAlexfAATransactionValidationPhase envOk 0 aatx4).2.2.take 2 =
      [(FrameKind.nonceManager, nonceManagerMsg aatx4),
       (FrameKind.deployer, emptyMessage)] := by
  obtain ⟨rest, hrest⟩ :=
    (deployer_invocation_condition_amended envOk 0 aatx4 okResult (by decide) rfl).1
      (by decide)
  rw [hrest]
  rfl

/-- C5 (amended): every error during transaction processing makes Process
return with no receipts, no logs and zero gas; errors raised in the legacy
loop (message construction or application) are annotated with the
offending transaction's block index and hash, while AA validation-phase
and execution-phase errors are returned by Process unannotated. -/
theorem process_error_empty_results_amended :
    (∀ (env : Env) (block : Block) (res : ProcessRet)
       (tr : List (FrameKind × Message)),
      Process env block = (GoResult.ret res, tr) → res.err ≠ none →
      res.receipts = none ∧ res.logs = none ∧ res.usedGas = 0) ∧
    (∀ (env : Env) (bn bh cnt i g : Nat) (txs : List Transaction) (e : GoError)
       (c : Nat) (tr : List (FrameKind × Message)),
      processLegacyLoop env bn bh cnt i g txs = (PhaseOutcome.err e, c, tr) →
      GoError.isWrapped e = true) ∧
    (∀ (env : Env) (block : Block) (e : GoError) (c : Nat)
       (tr : List (FrameKind × Message)),
      processValidationLoop env 0 block.Transactions = (PhaseOutcome.err e, c, tr) →
      (Process env block).1 =
        GoResult.ret { receipts := none, logs := none, usedGas := 0, err := some e }) ∧
    (∀ (env : Env) (block : Block) (vprs : List ValidationPhaseResult) (c1 : Nat)
       (tr1 : List (FrameKind × Message)) (e : GoError) (c : Nat)
       (tr : List (FrameKind × Message)),
      processValidationLoop env 0 block.Transactions = (PhaseOutcome.ok vprs, c1, tr1) →
      processExecutionLoop env block.Number block.Hash c1 vprs = (PhaseOutcome.err e, c, tr) →
      (Process env block).1 =
        GoResult.ret { receipts := none, logs := none, usedGas := 0, err := some e }) := by
  refine ⟨?_, ?_, ?_, ?_⟩
  · intro env block res tr h hne
    unfold Process at h
    split at h
    · simp at h
    · simp only [Prod.mk.injEq, GoResult.ret.injEq] at h
      rw [← h.1]
      exact ⟨rfl, rfl, rfl⟩
    · split at h
      · simp at h
      · simp only [Prod.mk.injEq, GoResult.ret.injEq] at h
        rw [← h.1]
        exact ⟨rfl, rfl, rfl⟩
      · split at h
        · simp at h
        · simp only [Prod.mk.injEq, GoResult.ret.injEq] at h
          rw [← h.1]
          exact ⟨rfl, rfl, rfl⟩
        · split at h
          · simp only [Prod.mk.injEq, GoResult.ret.injEq] at h
            rw [← h.1]
            exact ⟨rfl, rfl, rfl⟩
          · simp only [Prod.mk.injEq, GoResult.ret.injEq] at h
            rw [← h.1] at hne
            simp at hne
  · intro env bn bh cnt i g txs
    induction txs generalizing cnt i g with
    | nil =>
      intro e c tr h
      simp [processLegacyLoop] at h
    | cons t ts ih =>
      intro e c tr h
      unfold processLegacyLoop at h
      split at h
      · exact ih _ _ _ _ _ _ h
      · split at h
        · simp only [Prod.mk.injEq, PhaseOutcome.err.injEq] at h
          rw [← h.1]
          rfl
        · split at h
          · simp only [Prod.mk.injEq, PhaseOutcome.err.injEq] at h
            rw [← h.1]
            rfl
          · split at h
            · simp at h
            · rename_i e2 c2 tr2 heq
              simp only [Prod.mk.injEq, PhaseOutcome.err.injEq] at h
              rw [← h.1]
              exact ih _ _ _ _ _ _ heq
            · simp at h
  · intro env block e c tr h
    unfold Process
    simp only [h]
  · intro env block vprs c1 tr1 e c tr hv he
    unfold Process
    simp only [hv, he]

/-- C5 amended witness: the AA validation error of env5 and the AA
execution error of env10 both yield the empty result tuple with the
unannotated error; a legacy construction failure yields a wrapped
error. -/
theorem process_error_empty_results_amended_witness :
    ({ receipts := none, logs := none, usedGas := 0,
       err := some (GoError.msg "boom") } : ProcessRet).receipts = none ∧
    GoError.isWrapped (GoError.wrapTx 0 3 (GoError.msg "bad tx")) = true ∧
    (Process env5 block1).1 =
      GoResult.ret
        { receipts := none, logs := none, usedGas := 0,
          err := some (GoError.msg "boom") } ∧
    (Process env10 block1).1 =
      GoResult.ret
        { receipts := none, logs := none, usedGas := 0,
          err := some (GoError.msg "bad tx") } := by
  refine ⟨(process_error_empty_results_amended.1 env5 block1 _
      [(FrameKind.nonceManager, nonceManagerMsg aatx1)] rfl (by simp)).1,
    process_error_empty_results_amended.2.1 env10 1 1 0 0 0 [txL1]
      (GoError.wrapTx 0 3 (GoError.msg "bad tx")) 0 [] rfl,
    process_error_empty_results_amended.2.2.1 env5 block1 (GoError.msg "boom")
      1 [(FrameKind.nonceManager, nonceManagerMsg aatx1)] rfl,
    process_error_empty_results_amended.2.2.2 env10 block1 [vpr10] 3
      [(FrameKind.nonceManager, nonceManagerMsg aatx1),
       (FrameKind.accountValidation, accountValidationMsg aatx1),
       (FrameKind.paymasterValidation, paymasterMsg aatx1)]
      (GoError.msg "bad tx") 3 [] rfl rfl⟩

/-- The legacy loop ends its cumulative-gas chain (the cumulative values
prefixed with the starting accumulator) in the returned accumulator,
wraparound or not. -/
theorem processLegacyLoop_getLast (env : Env) (bn bh : Nat)
    (txs : List Transaction) :
    ∀ (cnt i g0 : Nat) (lrs : List Receipt) (g c : Nat)
      (tr : List (FrameKind × Message)),
    processLegacyLoop env bn bh cnt i g0 txs = (PhaseOutcome.ok (lrs, g), c, tr) →
    (g0 :: lrs.map Receipt.CumulativeGasUsed).getLast? = some g := by
  induction txs with
  | nil =>
    intro cnt i g0 lrs g c tr h
    simp only [processLegacyLoop, Prod.mk.injEq, PhaseOutcome.ok.injEq] at h
    obtain ⟨⟨h1, h2⟩, -, -⟩ := h
    subst h1; subst h2
    rfl
  | cons t ts ih =>
    intro cnt i g0 lrs g c tr h
    unfold processLegacyLoop at h
    split at h
    · exact ih _ _ _ _ _ _ _ h
    · split at h
      · simp at h
      · split at h
        · simp at h
        · rename_i receipt usedGas2 cA trA heqApply
          split at h
          · rename_i rs g2 c2 tr2 heqRec
            simp only [Prod.mk.injEq, PhaseOutcome.ok.injEq] at h
            obtain ⟨⟨hlrs, hg⟩, -, -⟩ := h
            subst hlrs; subst hg
            unfold applyTransaction at heqApply
            split at heqApply
            · simp at heqApply
            · simp only [Prod.mk.injEq, Except.ok.injEq] at heqApply
              obtain ⟨⟨hrec, hg2⟩, -, -⟩ := heqApply
              subst hrec; subst hg2
              simp only [List.map_cons]
              rw [List.getLast?_cons_cons]
              exact ih _ _ _ _ _ _ _ heqRec
          · simp at h
          · simp at h

/-- Provided the starting accumulator plus the receipts' total reported
gas stays below 2^64, no uint64 wraparound occurs in the legacy loop and
its cumulative-gas chain is non-decreasing. -/
theorem processLegacyLoop_chain (env : Env) (bn bh : Nat)
    (txs : List Transaction) :
    ∀ (cnt i g0 : Nat) (lrs : List Receipt) (g c : Nat)
      (tr : List (FrameKind × Message)),
    processLegacyLoop env bn bh cnt i g0 txs = (PhaseOutcome.ok (lrs, g), c, tr) →
    g0 + (lrs.map Receipt.GasUsed).sum < uint64Modulus →
    List.Chain' (· ≤ ·) (g0 :: lrs.map Receipt.CumulativeGasUsed) := by
  induction txs with
  | nil =>
    intro cnt i g0 lrs g c tr h hb
    simp only [processLegacyLoop, Prod.mk.injEq, PhaseOutcome.ok.injEq] at h
    obtain ⟨⟨h1, h2⟩, -, -⟩ := h
    subst h1
    exact List.chain'_singleton g0
  | cons t ts ih =>
    intro cnt i g0 lrs g c tr h hb
    unfold processLegacyLoop at h
    split at h
    · exact ih _ _ _ _ _ _ _ h hb
    · split at h
      · simp at h
      · split at h
        · simp at h
        · rename_i receipt usedGas2 cA trA heqApply
          split at h
          · rename_i rs g2 c2 tr2 heqRec
            simp only [Prod.mk.injEq, PhaseOutcome.ok.injEq] at h
            obtain ⟨⟨hlrs, hg⟩, -, -⟩ := h
            subst hlrs; subst hg
            unfold applyTransaction at heqApply
            split at heqApply
            · simp at heqApply
            · rename_i result heqA
              simp only [Prod.mk.injEq, Except.ok.injEq] at heqApply
              obtain ⟨⟨hrec, hg2⟩, -, -⟩ := heqApply
              subst hrec; subst hg2
              change g0 + (result.UsedGas + (rs.map Receipt.GasUsed).sum) <
                uint64Modulus at hb
              have hu : g0 + result.UsedGas < uint64Modulus := by omega
              have hmod : (g0 + result.UsedGas) % uint64Modulus = g0 + result.UsedGas :=
                Nat.mod_eq_of_lt hu
              simp only [List.map_cons]
              refine List.chain'_cons.mpr ⟨?_, ?_⟩
              · show g0 ≤ (g0 + result.UsedGas) % uint64Modulus
                rw [hmod]
                exact Nat.le_add_right _ _
              · have hb2 : (g0 + result.UsedGas) % uint64Modulus +
                    (rs.map Receipt.GasUsed).sum < uint64Modulus := by
                  rw [hmod]; omega
                exact ih _ _ _ _ _ _ _ heqRec hb2
          · simp at h
          · simp at h

/-- C7 (amended): on a successful Process run, the last legacy receipt's
cumulative gas equals the total gas used that Process returns (the legacy
loop's final accumulator, which only the legacy applier advances), and
the legacy receipts' cumulative gas is non-decreasing in application
order provided their total reported gas stays below 2^64 — the uint64
usedGas accumulator wraps on overflow, so without that bound (in practice
enforced by the block gas budget) monotonicity can fail. -/
theorem legacy_cumulative_gas_monotone
    (env : Env) (block : Block) (vprs : List ValidationPhaseResult)
    (aaRs lRs : List Receipt) (g c1 c2 c3 : Nat)
    (tr1 tr2 tr3 : List (FrameKind × Message))
    (hv : processValidationLoop env 0 block.Transactions = (PhaseOutcome.ok vprs, c1, tr1))
    (he : processExecutionLoop env block.Number block.Hash c1 vprs =
      (PhaseOutcome.ok aaRs, c2, tr2))
    (hl : processLegacyLoop env block.Number block.Hash c2 0 0 block.Transactions =
      (PhaseOutcome.ok (lRs, g), c3, tr3))
    (hsh : ¬ (0 < block.Withdrawals.length ∧ env.IsShanghai = false)) :
    ((lRs.map Receipt.GasUsed).sum < uint64Modulus →
      List.Chain' (· ≤ ·) (lRs.map Receipt.CumulativeGasUsed)) ∧
    (∀ r, lRs.getLast? = some r → r.CumulativeGasUsed = g) ∧
    (Process env block).1 =
      GoResult.ret
        { receipts := some (aaRs ++ lRs),
          logs := some (((aaRs ++ lRs).map Receipt.Logs).flatten),
          usedGas := g, err := none } := by
  have hlast := processLegacyLoop_getLast env block.Number block.Hash
    block.Transactions c2 0 0 lRs g c3 tr3 hl
  refine ⟨?_, ?_, ?_⟩
  · intro hb
    have hb0 : 0 + (lRs.map Receipt.GasUsed).sum < uint64Modulus := by
      rw [Nat.zero_add]; exact hb
    exact (List.chain'_cons'.mp
      (processLegacyLoop_chain env block.Number block.Hash block.Transactions
        c2 0 0 lRs g c3 tr3 hl hb0)).2
  · intro r hr
    have hmap : (lRs.map Receipt.CumulativeGasUsed).getLast? =
        some r.CumulativeGasUsed := by
      rw [List.getLast?_map, hr]
      rfl
    cases hm : lRs.map Receipt.CumulativeGasUsed with
    | nil =>
      rw [List.map_eq_nil_iff] at hm
      subst hm
      simp at hr
    | cons m ms =>
      rw [hm] at hlast hmap
      rw [List.getLast?_cons_cons] at hlast
      rw [hlast] at hmap
      exact (Option.some.injEq _ _ ▸ hmap).symm
  · unfold Process
    simp only [hv, he, hl]
    rw [if_neg hsh]

/-- C7 counterexample: two legacy transactions whose frames each report
2^63 gas used make the uint64 usedGas accumulator wrap — Process
completes successfully, yet the second legacy receipt's cumulative gas
(0) is below the first receipt's (2^63), so cumulative gas is not
non-decreasing as the claim states; the last receipt's cumulative gas
still equals the returned total (0). -/
theorem legacy_cumulative_wraparound_counterexample :
    (Process envW blockW).1 =
      GoResult.ret
        { receipts := some [rW1, rW2], logs := some [], usedGas := 0, err := none } ∧
    rW1.CumulativeGasUsed = 9223372036854775808 ∧
    rW2.CumulativeGasUsed = 0 ∧
    ¬ (rW1.CumulativeGasUsed ≤ rW2.CumulativeGasUsed) := by
  exact ⟨rfl, rfl, rfl, by decide⟩

/-- C7 amended witness: one legacy transaction consuming 7 gas yields the
single receipt with cumulative gas 7, equal to the total Process
returns. -/
theorem legacy_cumulative_gas_monotone_witness :
    receiptL1.CumulativeGasUsed = 7 ∧
    (Process env7 block7).1 =
      GoResult.ret
        { receipts := some ([] ++ [receiptL1]),
          logs := some ((([] ++ [receiptL1]).map Receipt.Logs).flatten),
          usedGas := 7, err := none } := by
  have h := legacy_cumulative_gas_monotone env7 block7 [] [] [receiptL1] 7 0 0 1
    [] [] [(FrameKind.legacyTx, legacyMsg1)] rfl rfl rfl (by decide)
  exact ⟨h.2.1 receiptL1 rfl, h.2.2⟩
